import Mathlib

/-! Verification of teuthology/provision.py: the Downburst VM provisioning
lifecycle controller. Python functions are shallowly embedded as Lean
definitions; Python exceptions are modelled with an explicit error type. -/

/-- Python exceptions that the embedded code can raise. -/
inductive PyError where
  | typeError
  | indexError
  | valueError
  | attributeError
deriving DecidableEq

/-- Result of one external subprocess invocation, as captured by
subprocess.Popen(...).communicate(): (returncode, stdout, stderr). -/
structure InvRes where
  returncode : Int
  stdout : String
  stderr : String
deriving DecidableEq

/-- Observable external side effects of the controller. -/
inductive Event where
  | buildConfig
  | invokeCreate
  | invokeDestroy
deriving DecidableEq

/-- Contiguous substring test on character lists. -/
def subList (n : List Char) : List Char → Bool
  | [] => n.isEmpty
  | c :: t => n.isPrefixOf (c :: t) || subList n t

/-- Python substring membership test: needle in hay. -/
def pyIn (needle hay : String) : Bool :=
  subList needle.toList hay.toList

/-- Python str.split(sep) for a single-character separator, on the character
list of the string: splits at every occurrence of the separator, keeping
empty pieces, and yields one piece even for the empty string. -/
def pySplitCh (sep : Char) : List Char → List (List Char)
  | [] => [[]]
  | c :: rest =>
      if c = sep then [] :: pySplitCh sep rest
      else
        match pySplitCh sep rest with
        | [] => [[c]]
        | h :: t => (c :: h) :: t

/-- The lock-status record for a machine, as returned by the external
lock-status service (teuthology.lockstatus.get_status): the fields
provision.py reads from it. -/
structure VmStatus where
  is_vm : Bool
  vm_host_name : String
  mac_address : String
  locked_by : String
  description : String
deriving DecidableEq

/-- The nested resource document built by Downburst.build_config
(provision.py lines 74 to 85): fixed sizing policy plus the MAC address
from the status record and the lower-cased distro name and version. -/
structure FileInfo where
  disk_size : String
  ram : String
  cpus : Nat
  network_source : String
  network_mac : String
  distro : String
  distroversion : String
  additional_disks : Nat
  additional_disks_size : String
  arch : String
deriving DecidableEq

/-- The full serialized descriptor document (provision.py line 87):
top-level keys downburst and local-hostname. -/
structure FileOut where
  downburst : FileInfo
  local_hostname : String
deriving DecidableEq

/-- Downburst.build_config (provision.py lines 71 to 90): builds the
descriptor document and serializes it to a fresh temporary file. The
local hostname is self.name.split('@')[1], which raises IndexError when
the name contains no '@'. -/
def build_config (name os_type os_version mac : String) :
    Except PyError FileOut :=
  match (pySplitCh '@' name.toList).get? 1 with
  | none => Except.error PyError.indexError
  | some fqdn =>
      Except.ok
        { downburst :=
            { disk_size := "100G"
              ram := "1.9G"
              cpus := 1
              network_source := "front"
              network_mac := mac
              distro := os_type.toLower
              distroversion := os_version
              arch := "x86_64"
              additional_disks := 3
              additional_disks_size := "200G" }
          local_hostname := String.mk fqdn }

/-- Downburst.destroy (provision.py lines 120 to 140): with no executable,
log and return False without invoking anything; otherwise invoke the
external destroy subcommand once and classify: non-empty stderr is
failure, exit code 0 with empty stderr is success, anything else is an
indeterminate outcome reported as failure. The event list records the
external invocations performed. -/
def Downburst.destroy (exe : String) (r : InvRes) : Bool × List Event :=
  if exe = "" then (false, [])
  else if r.stderr ≠ "" then (false, [Event.invokeDestroy])
  else if r.returncode = 0 then (true, [Event.invokeDestroy])
  else (false, [Event.invokeDestroy])

/-- The Python value returned by Downburst._run_create: the literal False
when no executable is found, or the (returncode, stdout, stderr) tuple of
the external invocation. -/
inductive RunCreateRet where
  | pyFalse
  | res (r : InvRes)
deriving DecidableEq

/-- Downburst._run_create (provision.py lines 50 to 69): raises ValueError
when no config_path is set; with no executable, logs an error and returns
the Python value False; otherwise invokes the external create subcommand
and returns its result tuple. -/
def run_create (config_path : Option String) (exe : String) (r : InvRes) :
    Except PyError RunCreateRet :=
  match config_path with
  | none => Except.error PyError.valueError
  | some _ =>
      if exe = "" then Except.ok RunCreateRet.pyFalse
      else Except.ok (RunCreateRet.res r)

/-- Modelled from the spec: safe_while (imported from
teuthology.contextutil, whose source is not part of this repository
snapshot) bounds the retry loop of Downburst.create to tries = 3
attempts with a fixed 60-unit sleep between attempts; when the budget is
exhausted the loop ends and the last recorded success flag is returned.
The fuel argument counts the remaining attempts; runs i is the result of
the i-th external create invocation and destroys j the result of the j-th
external destroy invocation. The loop body is Downburst.create
(provision.py lines 29 to 47): unpacking the result of _run_create into a
3-tuple raises TypeError when it is the Python value False; exit code 0
records success True and stops; non-empty stderr containing "exists"
records False, destroys the stale guest and retries; other non-empty
stderr records False and stops; empty stderr with non-zero exit code
changes nothing and retries. -/
def createLoop (config_path : Option String) (exe : String)
    (runs destroys : Nat → InvRes) (i j fuel : Nat)
    (success : Option Bool) (tr : List Event) :
    Except PyError (Option Bool) × List Event :=
  match fuel with
  | 0 => (Except.ok success, tr)
  | Nat.succ f =>
      match run_create config_path exe (runs i) with
      | Except.error e => (Except.error e, tr)
      | Except.ok RunCreateRet.pyFalse => (Except.error PyError.typeError, tr)
      | Except.ok (RunCreateRet.res r) =>
          let tr1 := tr ++ [Event.invokeCreate]
          if r.returncode = 0 then (Except.ok (some true), tr1)
          else if r.stderr ≠ "" then
            if pyIn ("exists") r.stderr then
              let d := Downburst.destroy exe (destroys j)
              createLoop config_path exe runs destroys (i + 1) (j + 1) f
                (some false) (tr1 ++ d.2)
            else (Except.ok (some false), tr1)
          else createLoop config_path exe runs destroys (i + 1) j f success tr1

/-- Downburst.create (provision.py lines 25 to 48): build the descriptor
once, then run the bounded retry loop with the success flag initialized
to the Python value None. tmppath is the name of the temporary file
allocated by build_config and stored in config_path. -/
def Downburst.create (name os_type os_version mac exe tmppath : String)
    (runs destroys : Nat → InvRes) :
    Except PyError (Option Bool) × List Event :=
  match build_config name os_type os_version mac with
  | Except.error e => (Except.error e, [])
  | Except.ok _ =>
      createLoop (some tmppath) exe runs destroys 0 0 3 none
        [Event.buildConfig]

/-- Downburst.remove_config (provision.py lines 142 to 147) together with
the file system it touches: fs is the list of existing paths. When
config_path is the Python value None, os.path.exists(None) raises
TypeError; when the path exists it is removed, config_path is cleared and
True is returned; otherwise False is returned and config_path is kept. -/
def remove_config (fs : List String) (config_path : Option String) :
    Except PyError (Bool × List String × Option String) :=
  match config_path with
  | none => Except.error PyError.typeError
  | some p =>
      if fs.contains p then Except.ok (true, fs.erase p, none)
      else Except.ok (false, fs, some p)

/-- Two successive calls of remove_config on the same controller,
threading the file-system state and the config_path field. -/
def remove_config_twice (fs : List String) (config_path : Option String) :
    Except PyError (Bool × List String × Option String) :=
  match remove_config fs config_path with
  | Except.error e => Except.error e
  | Except.ok (_, fs1, cp1) => remove_config fs1 cp1

/-- The keyword parameter names accepted by Downburst.__init__ besides
self (provision.py line 17). -/
def downburstInitParams : List String :=
  ["name", "os_type", "os_version", "status"]

/-- The keyword argument names used at the Downburst construction sites in
create_if_vm (provision.py line 169) and destroy_if_vm (line 193). -/
def constructionKeywords : List String :=
  ["machine_name", "os_type", "os_version", "status"]

/-- Python keyword-argument binding: a call that passes a keyword argument
matching no parameter name raises TypeError. -/
def callWithKeywords (params keywords : List String) : Except PyError Unit :=
  if keywords.all (fun k => params.contains k) then Except.ok ()
  else Except.error PyError.typeError

/-- create_if_vm (provision.py lines 153 to 171): look up the status
record (calling .get on the Python value None raises AttributeError),
return False for a non-VM, otherwise construct a Downburst controller
with keyword arguments and return its create result. -/
def create_if_vm (machine_name : String) (status : Option VmStatus)
    (os_type os_version exe tmppath : String) (runs destroys : Nat → InvRes) :
    Except PyError (Option Bool) :=
  match status with
  | none => Except.error PyError.attributeError
  | some st =>
      if st.is_vm = false then Except.ok (some false)
      else
        match callWithKeywords downburstInitParams constructionKeywords with
        | Except.error e => Except.error e
        | Except.ok _ =>
            (Downburst.create machine_name os_type os_version st.mac_address
              exe tmppath runs destroys).1

/-- The owner gate of destroy_if_vm (provision.py line 185): a
caller-supplied user that differs from the locked_by field of the status
record. -/
def ownerMismatch (user : Option String) (st : VmStatus) : Bool :=
  match user with
  | none => false
  | some u => decide (u ≠ st.locked_by)

/-- The description gate of destroy_if_vm (provision.py line 189): a
caller-supplied description that differs from the description field of
the status record. -/
def descMismatch (description : Option String) (st : VmStatus) : Bool :=
  match description with
  | none => false
  | some d => decide (d ≠ st.description)

/-- destroy_if_vm (provision.py lines 174 to 195): return True when the
status record is missing or not a VM; return False on an owner or
description mismatch; otherwise construct a Downburst controller with
keyword arguments and return its destroy result. The event list records
the external invocations performed. -/
def destroy_if_vm (status : Option VmStatus) (user description : Option String)
    (exe : String) (r : InvRes) : Except PyError Bool × List Event :=
  match status with
  | none => (Except.ok true, [])
  | some st =>
      if st.is_vm = false then (Except.ok true, [])
      else if ownerMismatch user st then (Except.ok false, [])
      else if descMismatch description st then (Except.ok false, [])
      else
        match callWithKeywords downburstInitParams constructionKeywords with
        | Except.error e => (Except.error e, [])
        | Except.ok _ =>
            let d := Downburst.destroy exe r
            (Except.ok d.1, d.2)

/-- Every create attempt whose invocation fails with exit code 1 and empty
standard error. -/
def silentFailRuns : Nat → InvRes :=
  fun _ => { returncode := 1, stdout := "", stderr := "" }

/-- Every invocation succeeds with exit code 0 and empty standard error. -/
def okRuns : Nat → InvRes :=
  fun _ => { returncode := 0, stdout := "", stderr := "" }

/-- Attempt 1 fails with stderr reporting an existing guest, attempt 2
succeeds with exit code 0. -/
def conflictThenOkRuns : Nat → InvRes := fun i =>
  if i = 0 then { returncode := 1, stdout := "", stderr := "guest exists" }
  else { returncode := 0, stdout := "created", stderr := "" }

/-- Attempt 1 fails with exit code 1 and empty stderr, attempt 2 succeeds
with exit code 0. -/
def silentThenOkRuns : Nat → InvRes := fun i =>
  if i = 0 then { returncode := 1, stdout := "", stderr := "" }
  else { returncode := 0, stdout := "created", stderr := "" }

/-- Every create attempt fails with a non-conflict error message. -/
def fatalRuns : Nat → InvRes :=
  fun _ => { returncode := 1, stdout := "", stderr := "cannot connect" }

/-- A sample VM status record: a VM locked by alice. -/
def aliceVmStatus : VmStatus :=
  { is_vm := true, vm_host_name := "host1", mac_address := "m",
    locked_by := "alice", description := "job" }

theorem constructionRaises :
    callWithKeywords downburstInitParams constructionKeywords
      = Except.error PyError.typeError := rfl

theorem destroy_trace (exe : String) (r : InvRes) :
    (Downburst.destroy exe r).2
      = if exe = "" then [] else [Event.invokeDestroy] := by
  unfold Downburst.destroy
  split_ifs <;> rfl

theorem createLoop_some_ne_none (cp : Option String) (exe : String)
    (runs destroys : Nat → InvRes) (i j fuel : Nat) (b : Bool)
    (tr : List Event) :
    (createLoop cp exe runs destroys i j fuel (some b) tr).1
      ≠ Except.ok none := by
  induction fuel generalizing i j b tr with
  | zero => simp [createLoop]
  | succ f ih =>
      simp only [createLoop]
      cases hrc : run_create cp exe (runs i) with
      | error e => simp
      | ok v =>
          cases v with
          | pyFalse => simp
          | res r =>
              simp only []
              split_ifs <;> first | apply ih | simp

theorem createLoop_isOk (p exe : String) (runs destroys : Nat → InvRes)
    (i j fuel : Nat) (s : Option Bool) (tr : List Event) (hexe : exe ≠ "") :
    ∃ v, (createLoop (some p) exe runs destroys i j fuel s tr).1
      = Except.ok v := by
  induction fuel generalizing i j s tr with
  | zero => exact ⟨s, rfl⟩
  | succ f ih =>
      simp only [createLoop]
      cases hrc : run_create (some p) exe (runs i) with
      | error e => exact absurd hrc (by simp [run_create, hexe])
      | ok v =>
          cases v with
          | pyFalse => exact absurd hrc (by simp [run_create, hexe])
          | res r =>
              simp only []
              split_ifs <;>
                first
                  | exact ⟨some true, rfl⟩
                  | exact ⟨some false, rfl⟩
                  | apply ih

theorem createLoop_trace (cp : Option String) (exe : String)
    (runs destroys : Nat → InvRes) (i j fuel : Nat) (s : Option Bool)
    (tr : List Event) :
    ∃ ext, (createLoop cp exe runs destroys i j fuel s tr).2 = tr ++ ext
      ∧ Event.buildConfig ∉ ext := by
  induction fuel generalizing i j s tr with
  | zero => exact ⟨[], by simp [createLoop]⟩
  | succ f ih =>
      simp only [createLoop]
      cases hrc : run_create cp exe (runs i) with
      | error e => exact ⟨[], by simp⟩
      | ok v =>
          cases v with
          | pyFalse => exact ⟨[], by simp⟩
          | res r =>
              simp only []
              split_ifs with h1 h2 h3
              · exact ⟨[Event.invokeCreate], by simp⟩
              · obtain ⟨ext, hext, hmem⟩ := ih (i + 1) (j + 1) (some false)
                  (tr ++ [Event.invokeCreate] ++ (Downburst.destroy exe (destroys j)).2)
                refine ⟨Event.invokeCreate ::
                    ((Downburst.destroy exe (destroys j)).2 ++ ext), ?_, ?_⟩
                · rw [hext]; simp
                · rw [destroy_trace]
                  split_ifs <;> simp_all
              · exact ⟨[Event.invokeCreate], by simp⟩
              · obtain ⟨ext, hext, hmem⟩ := ih (i + 1) j s (tr ++ [Event.invokeCreate])
                refine ⟨Event.invokeCreate :: ext, ?_, ?_⟩
                · rw [hext]; simp
                · simp_all

theorem createLoop_none_iff (p exe : String) (runs destroys : Nat → InvRes)
    (i j fuel : Nat) (tr : List Event) (hexe : exe ≠ "") :
    (createLoop (some p) exe runs destroys i j fuel none tr).1 = Except.ok none
      ↔ ∀ k, k < fuel →
          (runs (i + k)).returncode ≠ 0 ∧ (runs (i + k)).stderr = "" := by
  induction fuel generalizing i j tr with
  | zero => simp [createLoop]
  | succ f ih =>
      simp only [createLoop]
      cases hrc : run_create (some p) exe (runs i) with
      | error e => exact absurd hrc (by simp [run_create, hexe])
      | ok v =>
          cases v with
          | pyFalse => exact absurd hrc (by simp [run_create, hexe])
          | res r =>
              have hr : r = runs i := by
                have := hrc
                simp [run_create, hexe] at this
                exact this.symm
              subst hr
              simp only []
              split_ifs with h1 h2 h3
              · constructor
                · intro h; cases h
                · intro h
                  exact absurd h1 (h 0 (Nat.succ_pos f)).1.elim
              · constructor
                · intro h
                  exact (createLoop_some_ne_none _ _ _ _ _ _ _ _ _ h).elim
                · intro h
                  exact absurd ((h 0 (Nat.succ_pos f)).2) (by simpa using h2)
              · constructor
                · intro h; cases h
                · intro h
                  exact absurd ((h 0 (Nat.succ_pos f)).2) (by simpa using h2)
              · rw [ih]
                push_neg at h2
                constructor
                · intro h k hk
                  cases k with
                  | zero => exact ⟨h1, h2⟩
                  | succ k' =>
                      have hx := h k' (Nat.lt_of_succ_lt_succ hk)
                      have he : i + 1 + k' = i + (k' + 1) := by omega
                      rwa [he] at hx
                · intro h k hk
                  have hx := h (k + 1) (Nat.succ_lt_succ hk)
                  have he : i + (k + 1) = i + 1 + k := by omega
                  rwa [he] at hx

theorem pySplitCh_no_sep (sep : Char) (l : List Char) (h : sep ∉ l) :
    pySplitCh sep l = [l] := by
  induction l with
  | nil => rfl
  | cons c t ih =>
      have hc : ¬(c = sep) := fun hh => h (hh ▸ List.mem_cons_self c t)
      have ht : sep ∉ t := fun hm => h (List.mem_cons_of_mem c hm)
      simp only [pySplitCh, if_neg hc, ih ht]

theorem pySplitCh_append (sep : Char) (l1 l2 : List Char) (h : sep ∉ l1) :
    pySplitCh sep (l1 ++ sep :: l2) = l1 :: pySplitCh sep l2 := by
  induction l1 with
  | nil => simp [pySplitCh]
  | cons c t ih =>
      have hc : ¬(c = sep) := fun hh => h (hh ▸ List.mem_cons_self c t)
      have ht : sep ∉ t := fun hm => h (List.mem_cons_of_mem c hm)
      simp only [List.cons_append, pySplitCh, List.append_eq, if_neg hc, ih ht]

theorem createLoop_step (p exe : String) (hexe : exe ≠ "")
    (runs destroys : Nat → InvRes) (i j f : Nat) (s : Option Bool)
    (tr : List Event) :
    createLoop (some p) exe runs destroys i j (f + 1) s tr
      = (if (runs i).returncode = 0 then
           (Except.ok (some true), tr ++ [Event.invokeCreate])
         else if (runs i).stderr ≠ "" then
           if pyIn ("exists") (runs i).stderr then
             createLoop (some p) exe runs destroys (i + 1) (j + 1) f (some false)
               (tr ++ [Event.invokeCreate] ++ (Downburst.destroy exe (destroys j)).2)
           else (Except.ok (some false), tr ++ [Event.invokeCreate])
         else createLoop (some p) exe runs destroys (i + 1) j f s
           (tr ++ [Event.invokeCreate])) := by
  simp only [createLoop]
  cases hrcx : run_create (some p) exe (runs i) with
  | error e => exact absurd hrcx (by simp [run_create, hexe])
  | ok v =>
      cases v with
      | pyFalse => exact absurd hrcx (by simp [run_create, hexe])
      | res r =>
          have hr : r = runs i := by
            have hx := hrcx
            simp [run_create, hexe] at hx
            exact hx.symm
          subst hr
          rfl

/-- Claim C1 (code bug): with no provisioning executable found,
Downburst._run_create itself logs an error and returns the Python value
False, but Downburst.create unpacks that value into a 3-tuple and
therefore raises TypeError to its caller instead of returning the boolean
False. -/
theorem C1_create_no_executable_raises :
    run_create (some ("/tmp/cfg")) ""
        { returncode := 1, stdout := "", stderr := "" }
      = Except.ok RunCreateRet.pyFalse
  ∧ (Downburst.create ("ubuntu@vpm001") ("ubuntu") ("12.04") ("m") ""
        ("/tmp/cfg") silentFailRuns okRuns).1 = Except.error PyError.typeError :=
  ⟨rfl, rfl⟩

/-- Claim C2: when create_if_vm runs on a machine whose status has is_vm
true, and when destroy_if_vm passes the is-VM, owner and description
checks, the Downburst construction with keyword argument machine_name
raises TypeError: neither entry point performs any external invocation or
returns the boolean result of the controller. -/
theorem C2_entry_points_raise_typeError (machine_name : String)
    (st : VmStatus) (user desc : Option String)
    (os_type os_version exe tmppath : String)
    (runs destroys : Nat → InvRes) (r : InvRes)
    (hvm : st.is_vm = true)
    (hu : ownerMismatch user st = false)
    (hd : descMismatch desc st = false) :
    create_if_vm machine_name (some st) os_type os_version exe tmppath
        runs destroys = Except.error PyError.typeError
  ∧ destroy_if_vm (some st) user desc exe r
      = (Except.error PyError.typeError, []) := by
  constructor
  · simp [create_if_vm, hvm, constructionRaises]
  · simp [destroy_if_vm, hvm, hu, hd, constructionRaises]

/-- Witness for C2 at a concrete VM status record. -/
theorem C2_witness :
    create_if_vm ("ubuntu@vpm001") (some aliceVmStatus) ("ubuntu") ("12.04")
        ("downburst") ("/tmp/cfg") okRuns okRuns = Except.error PyError.typeError
  ∧ destroy_if_vm (some aliceVmStatus) none none ("downburst")
      { returncode := 0, stdout := "", stderr := "" }
      = (Except.error PyError.typeError, []) :=
  C2_entry_points_raise_typeError ("ubuntu@vpm001") aliceVmStatus none none
    ("ubuntu") ("12.04") ("downburst") ("/tmp/cfg") okRuns okRuns
    { returncode := 0, stdout := "", stderr := "" } rfl rfl rfl

/-- Claim C3 counterexample: on attempt 1 the invocation returns exit code
1 with empty standard error, which does not contain "exists"; the claim
demands immediate failure with no further retries, but the controller
retries and returns success from attempt 2, having performed two create
invocations. -/
theorem C3_cex_empty_stderr_retries :
    Downburst.create ("ubuntu@vpm001") ("ubuntu") ("12.04") ("m")
        ("downburst") ("/tmp/cfg") silentThenOkRuns okRuns
      = (Except.ok (some true),
         [Event.buildConfig, Event.invokeCreate, Event.invokeCreate]) := rfl

/-- Claim C3 as amended: for every create attempt whose invocation returns
a non-zero exit code and a non-empty standard error not containing
"exists", the loop stops at that attempt with result False, consuming no
further retries and performing no destroy invocation, whatever the
remaining budget: exactly one create invocation is appended to the trace. -/
theorem C3_fatal_error_stops_immediately (p exe : String)
    (runs destroys : Nat → InvRes) (i j fuel : Nat) (s : Option Bool)
    (tr : List Event) (hexe : exe ≠ "")
    (hrc : (runs i).returncode ≠ 0) (hs : (runs i).stderr ≠ "")
    (hne : pyIn ("exists") (runs i).stderr = false) :
    createLoop (some p) exe runs destroys i j (fuel + 1) s tr
      = (Except.ok (some false), tr ++ [Event.invokeCreate]) := by
  rw [createLoop_step _ _ hexe, if_neg hrc, if_pos hs, if_neg (by simp [hne])]

/-- Witness for C3 at a concrete fatal error run. -/
theorem C3_witness :
    createLoop (some ("/tmp/cfg")) ("downburst") fatalRuns okRuns 0 0 3 none
        [Event.buildConfig]
      = (Except.ok (some false), [Event.buildConfig, Event.invokeCreate]) :=
  C3_fatal_error_stops_immediately ("/tmp/cfg") ("downburst") fatalRuns okRuns
    0 0 2 none [Event.buildConfig] (by decide) (by decide) (by decide)
    (by decide)

/-- Claim C4 (code bug): the first remove_config call on a live descriptor
file removes it and clears config_path, but the second call evaluates
os.path.exists on the Python value None and raises TypeError instead of
returning the nothing-to-remove indication False. -/
theorem C4_remove_config_second_call_raises :
    remove_config (["/tmp/cfg"]) (some ("/tmp/cfg"))
      = Except.ok (true, [], none)
  ∧ remove_config_twice (["/tmp/cfg"]) (some ("/tmp/cfg"))
      = Except.error PyError.typeError :=
  ⟨rfl, rfl⟩

/-- Claim C5: when attempt 1 fails with stderr containing "exists" and
attempt 2 returns exit code 0, create performs exactly one destroy
invocation and exactly two create invocations and returns True. -/
theorem C5_conflict_then_success
    (name os_type os_version mac exe tmppath : String)
    (runs destroys : Nat → InvRes) {cfg : FileOut}
    (hb : build_config name os_type os_version mac = Except.ok cfg)
    (hexe : exe ≠ "")
    (h0rc : (runs 0).returncode ≠ 0)
    (h0ne : (runs 0).stderr ≠ "")
    (h0in : pyIn ("exists") (runs 0).stderr = true)
    (h1rc : (runs 1).returncode = 0) :
    Downburst.create name os_type os_version mac exe tmppath runs destroys
      = (Except.ok (some true),
         [Event.buildConfig, Event.invokeCreate, Event.invokeDestroy,
          Event.invokeCreate]) := by
  unfold Downburst.create
  rw [hb]
  rw [createLoop_step _ _ hexe, if_neg h0rc, if_pos h0ne, if_pos (by simp [h0in]),
      destroy_trace, if_neg hexe]
  rw [createLoop_step _ _ hexe]
  simp [h1rc]

/-- Witness for C5 at a concrete conflict-then-success run. -/
theorem C5_witness :
    Downburst.create ("ubuntu@vpm001") ("ubuntu") ("12.04") ("m")
        ("downburst") ("/tmp/cfg") conflictThenOkRuns okRuns
      = (Except.ok (some true),
         [Event.buildConfig, Event.invokeCreate, Event.invokeDestroy,
          Event.invokeCreate]) :=
  C5_conflict_then_success ("ubuntu@vpm001") ("ubuntu") ("12.04") ("m")
    ("downburst") ("/tmp/cfg") conflictThenOkRuns okRuns rfl (by decide)
    (by decide) (by decide) (by decide) (by decide)

/-- Claim C6 counterexample: in a run whose first attempt hits an
existing-guest conflict and whose second attempt succeeds, the trace holds
two create invocations but only one buildConfig event, so no fresh
descriptor was built before the retry attempt. -/
theorem C6_cex_single_build_two_attempts :
    (Downburst.create ("ubuntu@vpm001") ("ubuntu") ("12.04") ("m")
        ("downburst") ("/tmp/cfg") conflictThenOkRuns okRuns).2
      = [Event.buildConfig, Event.invokeCreate, Event.invokeDestroy,
         Event.invokeCreate]
  ∧ (Downburst.create ("ubuntu@vpm001") ("ubuntu") ("12.04") ("m")
        ("downburst") ("/tmp/cfg") conflictThenOkRuns okRuns).2.count
        Event.buildConfig = 1
  ∧ (Downburst.create ("ubuntu@vpm001") ("ubuntu") ("12.04") ("m")
        ("downburst") ("/tmp/cfg") conflictThenOkRuns okRuns).2.count
        Event.invokeCreate = 2 :=
  ⟨rfl, by decide, by decide⟩

/-- Claim C6 as amended: a create call builds and serializes the machine
descriptor exactly once, before the first external create invocation;
retry attempts reuse the same descriptor file instead of building a fresh
one: in every trace the buildConfig event occurs exactly once and is the
first event. -/
theorem C6_descriptor_built_once
    (name os_type os_version mac exe tmppath : String)
    (runs destroys : Nat → InvRes) {cfg : FileOut}
    (hb : build_config name os_type os_version mac = Except.ok cfg) :
    ((Downburst.create name os_type os_version mac exe tmppath runs
        destroys).2.count Event.buildConfig = 1)
  ∧ ((Downburst.create name os_type os_version mac exe tmppath runs
        destroys).2.head? = some Event.buildConfig) := by
  unfold Downburst.create
  rw [hb]
  obtain ⟨ext, hext, hmem⟩ :=
    createLoop_trace (some tmppath) exe runs destroys 0 0 3 none
      [Event.buildConfig]
  rw [hext]
  constructor
  · rw [List.count_append]
    simp [List.count_eq_zero.mpr hmem]
  · rfl

/-- Witness for C6 at a concrete conflict-then-success run. -/
theorem C6_witness :
    ((Downburst.create ("ubuntu@vpm001") ("ubuntu") ("12.04") ("m")
        ("downburst") ("/tmp/cfg") conflictThenOkRuns okRuns).2.count
        Event.buildConfig = 1)
  ∧ ((Downburst.create ("ubuntu@vpm001") ("ubuntu") ("12.04") ("m")
        ("downburst") ("/tmp/cfg") conflictThenOkRuns okRuns).2.head?
        = some Event.buildConfig) :=
  C6_descriptor_built_once ("ubuntu@vpm001") ("ubuntu") ("12.04") ("m")
    ("downburst") ("/tmp/cfg") conflictThenOkRuns okRuns rfl

/-- Claim C7 counterexample: when all three attempts return exit code 1
with empty standard error, create returns the Python value None, which is
neither the boolean True nor the boolean False. -/
theorem C7_cex_returns_none :
    (Downburst.create ("ubuntu@vpm001") ("ubuntu") ("12.04") ("m")
        ("downburst") ("/tmp/cfg") silentFailRuns okRuns).1 = Except.ok none
  ∧ (Except.ok none : Except PyError (Option Bool)) ≠ Except.ok (some true)
  ∧ (Except.ok none : Except PyError (Option Bool)) ≠ Except.ok (some false) :=
  ⟨rfl, by simp, by simp⟩

/-- Claim C7 as amended: with an executable available and a well-formed
name, create always returns a value rather than raising, and the value is
the Python value None, not a boolean, exactly when every one of the three
attempts exits non-zero with empty standard error; in every other case the
result is a boolean. -/
theorem C7_result_characterization
    (name os_type os_version mac exe tmppath : String)
    (runs destroys : Nat → InvRes) {cfg : FileOut}
    (hb : build_config name os_type os_version mac = Except.ok cfg)
    (hexe : exe ≠ "") :
    (∃ v, (Downburst.create name os_type os_version mac exe tmppath runs
        destroys).1 = Except.ok v)
  ∧ ((Downburst.create name os_type os_version mac exe tmppath runs
        destroys).1 = Except.ok none
      ↔ ∀ k, k < 3 → (runs k).returncode ≠ 0 ∧ (runs k).stderr = "") := by
  unfold Downburst.create
  rw [hb]
  constructor
  · exact createLoop_isOk _ _ _ _ _ _ _ _ _ hexe
  · have h := createLoop_none_iff tmppath exe runs destroys 0 0 3
      [Event.buildConfig] hexe
    simpa using h

/-- Witness for C7 at a concrete all-silent-failures run. -/
theorem C7_witness :
    (Downburst.create ("ubuntu@vpm001") ("ubuntu") ("12.04") ("m")
        ("downburst") ("/tmp/cfg") silentFailRuns okRuns).1 = Except.ok none :=
  (C7_result_characterization ("ubuntu@vpm001") ("ubuntu") ("12.04") ("m")
      ("downburst") ("/tmp/cfg") silentFailRuns okRuns rfl (by decide)).2.mpr
    (by decide)

/-- Claim C8 counterexample: for the identity "a@b@c" the substring after
the first at sign is "b@c", but build_config stores "b", the segment
between the first and second at signs. -/
theorem C8_cex_two_at_signs :
    (match build_config ("a@b@c") ("Ubuntu") ("12.04") ("m") with
     | Except.ok cfg => some cfg.local_hostname
     | Except.error _ => none) = some ("b")
  ∧ List.drop 2 ("a@b@c".toList) = "b@c".toList
  ∧ ("b" : String) ≠ "b@c" :=
  ⟨rfl, by decide, by decide⟩

/-- Claim C8 as amended: the local-hostname of the descriptor is the second
at-separated segment of the identity: for an identity of form
host_part@local_part where neither part contains a further at sign it
equals local_part, and for an identity containing no at sign build_config
raises IndexError rather than silently using the whole identity. -/
theorem C8_local_hostname (h l : List Char) (os_type os_version mac : String)
    (hh : '@' ∉ h) (hl : '@' ∉ l) :
    (∃ cfg, build_config (String.mk (h ++ '@' :: l)) os_type os_version mac
        = Except.ok cfg ∧ cfg.local_hostname = String.mk l)
  ∧ (∀ n : List Char, '@' ∉ n →
      build_config (String.mk n) os_type os_version mac
        = Except.error PyError.indexError) := by
  constructor
  · unfold build_config
    rw [show (String.mk (h ++ '@' :: l)).toList = h ++ '@' :: l from rfl,
        pySplitCh_append _ _ _ hh, pySplitCh_no_sep _ _ hl]
    exact ⟨_, rfl, rfl⟩
  · intro n hn
    unfold build_config
    rw [show (String.mk n).toList = n from rfl, pySplitCh_no_sep _ _ hn]
    rfl

/-- Witness for C8 at the concrete identity a at b. -/
theorem C8_witness :
    (match build_config ("a@b") ("Ubuntu") ("12.04") ("m") with
     | Except.ok cfg => some cfg.local_hostname
     | Except.error _ => none) = some ("b") := by
  obtain ⟨cfg, h1, h2⟩ :=
    (C8_local_hostname ['a'] ['b'] ("Ubuntu") ("12.04") ("m") (by decide)
      (by decide)).1
  rw [show ("a@b" : String) = String.mk (['a'] ++ '@' :: ['b']) from rfl, h1]
  show some cfg.local_hostname = some ("b")
  rw [h2]

/-- Claim C9: destroy classifies the result of its single external
invocation: non-empty stderr returns False regardless of exit code; empty
stderr with exit code 0 returns True; empty stderr with non-zero exit
code is an indeterminate outcome returned as False. -/
theorem C9_destroy_classification (exe : String) (r : InvRes)
    (hexe : exe ≠ "") :
    (r.stderr ≠ "" → (Downburst.destroy exe r).1 = false)
  ∧ (r.stderr = "" → r.returncode = 0 → (Downburst.destroy exe r).1 = true)
  ∧ (r.stderr = "" → r.returncode ≠ 0 → (Downburst.destroy exe r).1 = false) := by
  refine ⟨?_, ?_, ?_⟩ <;> intros <;> simp_all [Downburst.destroy]

/-- Witness for C9 at a concrete failed destroy invocation. -/
theorem C9_witness :
    (Downburst.destroy ("downburst")
        { returncode := 1, stdout := "", stderr := "boom" }).1 = false :=
  (C9_destroy_classification ("downburst")
      { returncode := 1, stdout := "", stderr := "boom" } (by decide)).1
    (by decide)

/-- Claim C10: in destroy_if_vm, an owner or description mismatch on a VM
returns failure with zero external invocations, while a missing status
record or a non-VM target returns success with zero external
invocations. -/
theorem C10_destroy_if_vm_gates (st : VmStatus) (user desc : Option String)
    (exe : String) (r : InvRes) :
    (st.is_vm = true →
      (ownerMismatch user st = true ∨ descMismatch desc st = true) →
      destroy_if_vm (some st) user desc exe r = (Except.ok false, []))
  ∧ (st.is_vm = false →
      destroy_if_vm (some st) user desc exe r = (Except.ok true, []))
  ∧ destroy_if_vm none user desc exe r = (Except.ok true, []) := by
  refine ⟨?_, ?_, rfl⟩
  · intro hvm hmis
    rcases hmis with hmis | hmis
    · simp [destroy_if_vm, hvm, hmis]
    · cases ho : ownerMismatch user st <;> simp [destroy_if_vm, hvm, hmis, ho]
  · intro hvm
    simp [destroy_if_vm, hvm]

/-- Witness for C10: bob cannot destroy a VM locked by alice and no
external invocation happens. -/
theorem C10_witness :
    destroy_if_vm (some aliceVmStatus) (some ("bob")) none ("downburst")
        { returncode := 0, stdout := "", stderr := "" }
      = (Except.ok false, []) :=
  (C10_destroy_if_vm_gates aliceVmStatus (some ("bob")) none ("downburst")
      { returncode := 0, stdout := "", stderr := "" }).1 rfl
    (Or.inl (by decide))
